import Mathlib

/-!
Verification of the signal-conditioning and k-fold orchestration pipeline of the
G2Net gravitational-wave detection notebook
(src/03_G2Net_gravitational_wave_detection/G2Net_CNN1D_GeM_AdamW_Bandpass.ipynb).

The shallow embedding below translates the notebook's own code:
floating-point arrays become lists over ℝ (exact real arithmetic), in-place
mutation of the global config dict becomes explicit state passing, Python
exceptions become an error type threaded through `Except` / an `err` field, and
the external libraries the notebook calls (scipy, sklearn, TensorFlow) are
embedded at the granularity their documented semantics prescribes for the
claims at hand (see the doc comment of each definition).
-/

/-- Python exceptions raised by the notebook's code paths: `ValueError` (unknown
filter type; non-empty results directory), `TypeError` (`None - float` when a
bandpass filter is built without `f_hi`), `FileExistsError` (from `Path.mkdir`),
and the IO error `keras.models.load_model` raises for a missing checkpoint.
Messages are irrelevant to the claims and omitted. -/
inductive PyError
  | fileExistsError
  | valueError
  | typeError
  | ioError
deriving DecidableEq

/-- Python's `str.lower()` applied to the `filter_type` argument:
lower-cases every character. -/
def pyLower (s : String) : String := ⟨s.data.map Char.toLower⟩

/- ### SignalFilter (notebook cell 6) -/

/-- One channel of a waveform: a real-valued time series
(the notebook stores 4096 samples; lengths are kept general). -/
abbrev Channel := List ℝ

/-- One record: a multi-channel waveform, `channels × samples`
(3 × 4096 in the notebook). -/
abbrev Record := List Channel

/-- The `scaling` argument of `SignalFilter.__init__`: either a single scalar
multiplied into every sample, or a per-channel column vector (shape `(3, 1)`)
that numpy broadcasts over the channel axis. -/
inductive Scaling
  | scalar (s : ℝ)
  | perChannel (s : List ℝ)

/-- The `filter_window` attribute: the Tukey taper array in the bandpass case,
the Python float `1.` in the highpass case. -/
inductive TaperWindow
  | vec (w : List ℝ)
  | one

/-- One second-order section as produced by `scipy.signal.butter(..., output='sos')`:
numerator coefficients `b0 b1 b2` and denominator coefficients `a1 a2`
(sections are normalized so `a0 = 1`). -/
structure Biquad where
  b0 : ℝ
  b1 : ℝ
  b2 : ℝ
  a1 : ℝ
  a2 : ℝ

/-- One step of a biquad section in direct form II transposed (the realization
`scipy.signal.sosfilt` uses): given state `(s1, s2)` and input `x`, output
`y = b0*x + s1` and the next state. -/
def biquadStep (c : Biquad) (st : ℝ × ℝ) (x : ℝ) : ℝ × (ℝ × ℝ) :=
  let y := c.b0 * x + st.1
  (y, (c.b1 * x - c.a1 * y + st.2, c.b2 * x - c.a2 * y))

/-- Run one biquad section over a signal, carrying the filter state. -/
def biquadRun (c : Biquad) (st : ℝ × ℝ) : List ℝ → List ℝ
  | [] => []
  | x :: xs =>
    let r := biquadStep c st x
    r.1 :: biquadRun c r.2 xs

/-- `scipy.signal.sosfilt` on one 1-d signal: the cascade of second-order
sections, each with zero initial state, applied in order. -/
def sosfilt1 (sos : List Biquad) (xs : List ℝ) : List ℝ :=
  sos.foldl (fun s c => biquadRun c (0, 0) s) xs

/-- `scipy.signal.windows.tukey M alpha` for `0 < alpha < 1` (the notebook calls
`signal.tukey(4096, 0.1)`): flat middle, raised-cosine tapers of width
`floor(alpha*(M-1)/2)` at both edges. -/
noncomputable def tukeyWin (M : ℕ) (alpha : ℝ) : List ℝ :=
  let width : ℕ := ⌊alpha * ((M : ℝ) - 1) / 2⌋₊
  (List.range M).map (fun n =>
    if n ≤ width then
      0.5 * (1 + Real.cos (Real.pi * (-1 + 2 * (n : ℝ) / (alpha * ((M : ℝ) - 1)))))
    else if n < M - width - 1 then (1 : ℝ)
    else
      0.5 * (1 + Real.cos (Real.pi * (-2 / alpha + 1 + 2 * (n : ℝ) / (alpha * ((M : ℝ) - 1))))))

/-- The constructor arguments of `SignalFilter.__init__`. `f_hi` has Python
default `None`, hence an `Option`; the other cutoff arguments are floats with
non-`None` defaults and are always present. -/
structure FilterSpec where
  scaling : Scaling
  filter_type : String
  filter_order : ℕ
  f_lo : ℝ
  f_hi : Option ℝ
  sampling_rate : ℝ

/-- The well-formedness invariant on cutoffs (spec §3): positive low cutoff
below Nyquist, and for bandpass `low < high < Nyquist`. Inside this range the
external `scipy.signal.butter` design succeeds. -/
def FilterSpec.wellFormed (spec : FilterSpec) : Prop :=
  0 < spec.f_lo ∧ spec.f_lo < spec.sampling_rate / 2 ∧
    ∀ fh ∈ spec.f_hi, spec.f_lo < fh ∧ fh < spec.sampling_rate / 2

/-- The constructed filter object: the four attributes `SignalFilter.__init__`
stores (`self.scaling`, `self.filter_window`, `self.filter_norm`, `self.filter`). -/
structure SignalFilter where
  scaling : Scaling
  filter_window : TaperWindow
  filter_norm : ℝ
  filter : List Biquad

/-- `SignalFilter.__init__`. The embedding is parametric in `butter`, the
external `scipy.signal.butter(N, Wn, btype, output='sos', fs)` coefficient
design (no claim depends on the coefficient values); `Wn` is the cutoff list
(`[f_lo, f_hi]` for bandpass, `[f_lo]` for the scalar highpass cutoff) and the
`btype` string is passed through unmodified, as in the source. Branches follow
the source: `filter_type.lower() == 'bandpass'` first (where `f_hi = None`
raises `TypeError` at `f_hi - f_lo` in the norm computation), then
`'highpass'`, else `ValueError`. -/
noncomputable def SignalFilter.construct
    (butter : ℕ → List ℝ → String → ℝ → List Biquad) (spec : FilterSpec) :
    Except PyError SignalFilter :=
  if pyLower spec.filter_type = "bandpass" then
    match spec.f_hi with
    | none => Except.error PyError.typeError
    | some f_hi =>
      Except.ok
        { scaling := spec.scaling
          filter_window := TaperWindow.vec (tukeyWin 4096 0.1)
          filter_norm := Real.sqrt ((f_hi - spec.f_lo) / (spec.sampling_rate / 2))
          filter := butter spec.filter_order [spec.f_lo, f_hi] spec.filter_type
            spec.sampling_rate }
  else if pyLower spec.filter_type = "highpass" then
    Except.ok
      { scaling := spec.scaling
        filter_window := TaperWindow.one
        filter_norm := 1
        filter := butter spec.filter_order [spec.f_lo] spec.filter_type
          spec.sampling_rate }
  else Except.error PyError.valueError

/-- Step (1) of `filt`: `scaling * X`, numpy-broadcast over one record — a
scalar multiplies every sample, a per-channel vector multiplies channel `i`
by its `i`-th entry. -/
def scaleRecord : Scaling → Record → Record
  | Scaling.scalar s, r => r.map (List.map (fun x => s * x))
  | Scaling.perChannel s, r => List.zipWith (fun si ch => ch.map (fun x => si * x)) s r

/-- Step (2) of `filt`: `... * self.filter_window`, broadcast along the time
axis of every channel (the highpass case multiplies by the float `1.`). -/
def taperRecord : TaperWindow → Record → Record
  | TaperWindow.vec w, r => r.map (fun ch => List.zipWith (fun x wi => x * wi) ch w)
  | TaperWindow.one, r => r.map (List.map (fun x => x * 1))

/-- Step (3) of `filt`: `signal.sosfilt(self.filter, X)`, which filters along
the last (time) axis, independently per channel. -/
def sosRecord (sos : List Biquad) (r : Record) : Record := r.map (sosfilt1 sos)

/-- Step (4) of `filt`: `X *= self.filter_norm`, elementwise. -/
def normRecord (c : ℝ) (r : Record) : Record := r.map (List.map (fun x => x * c))

/-- `SignalFilter.filt` on a batch `X` of records, line by line as in the
source: `X = self.scaling * X * self.filter_window` (one fused elementwise
pass over the whole batch), then `X = signal.sosfilt(self.filter, X)` (along
the last axis), then `X *= self.filter_norm`. -/
def SignalFilter.filt (f : SignalFilter) (X : List Record) : List Record :=
  let X1 := X.map (fun r => taperRecord f.filter_window (scaleRecord f.scaling r))
  let X2 := X1.map (sosRecord f.filter)
  X2.map (normRecord f.filter_norm)

/- ### Fold assignment (sklearn `KFold(n_splits, shuffle=True, random_state)`,
called in `train_K_folds_make_inference`, notebook cell 11) -/

/-- Cut a list into consecutive slices of the given sizes
(`indices[current : current + fold_size]` in sklearn's `_iter_test_indices`). -/
def sliceBySizes {α : Type} : List ℕ → List α → List (List α)
  | [], _ => []
  | s :: rest, xs => xs.take s :: sliceBySizes rest (xs.drop s)

/-- sklearn's fold sizes: `fold_sizes = np.full(n_splits, n_samples // n_splits);
fold_sizes[: n_samples % n_splits] += 1`. -/
def fold_sizes (K N : ℕ) : List ℕ :=
  List.replicate (N % K) (N / K + 1) ++ List.replicate (K - N % K) (N / K)

/-- The K validation groups of `KFold(K, shuffle=True, random_state=seed)`:
consecutive slices of the shuffled index array. The seeded numpy shuffle is
embedded as the resulting permutation `shuffled` of `range N` (every seed
yields some permutation; the claims quantify over all of them). sklearn
additionally reports each group sorted ascending (it indexes `arange(n)` with
a boolean mask), which none of the membership-level claims can observe. -/
def kfold_val_groups (K : ℕ) (shuffled : List ℕ) : List (List ℕ) :=
  sliceBySizes (fold_sizes K shuffled.length) shuffled

/-- The training indices of fold `k`: all indices of `arange(N)` not in fold
`k`'s validation group (`train_index = indices[np.logical_not(test_mask)]`). -/
def kfold_train_indices (K : ℕ) (shuffled : List ℕ) (k : ℕ) : List ℕ :=
  (List.range shuffled.length).filter
    (fun i => decide (i ∉ (kfold_val_groups K shuffled).getD k []))

/- ### Record order of `Data.get_dataset` (notebook cell 6) -/

/-- Record order of `tf.data.TFRecordDataset(files, num_parallel_reads, ...)`:
with `num_parallel_reads = 1` the files are read sequentially, giving the
concatenation of the files' records; per the TensorFlow documentation, with
more than one parallel read the records of different files are interleaved
(cycled through the open files), modelled as the round-robin interleaving.
`num_parallel_reads = AUTOTUNE` leaves the read parallelism to the runtime,
so it enters the embedding as an unspecified value of this argument. -/
def tfRecordDataset_order {α : Type} (files : List (List α)) (num_parallel_reads : ℕ) :
    List α :=
  if num_parallel_reads ≤ 1 then files.flatten else (List.transpose files).flatten

/-- Record order produced by `Data.get_dataset(train_or_test, shuffle,
file_indices)`: select train or test shard files, restrict to `file_indices`
when given, read them with `num_parallel_reads = AUTO if train_or_test else 1`
(the source comment: do not interleave test data files with parallel reads),
and shuffle only when requested (`shuffle_order` stands for the buffered
shuffle's reordering). The subsequent `map`/`batch`/`prefetch` stages are
order-preserving (`experimental_deterministic` is only relaxed in the shuffle
branch) and drop out of the order semantics. `autotune` is the runtime-tuned
parallel read degree of `tf.data.AUTOTUNE`. -/
def get_dataset_order {α : Type} (train_files test_files : List (List α))
    (autotune : ℕ) (shuffle_order : List α → List α)
    (train_or_test shuffle : Bool) (file_indices : Option (List ℕ)) : List α :=
  let data_files := if train_or_test then train_files else test_files
  let data_files :=
    match file_indices with
    | some idx => idx.map (fun i => data_files.getD i [])
    | none => data_files
  let ds := tfRecordDataset_order data_files (if train_or_test then autotune else 1)
  if shuffle then shuffle_order ds else ds

/- ### GeM pooling layer (notebook cell 8) -/

/-- The constructor attributes of the `GeM` layer: window size `pool_size`,
exponent `p` (Python int, default 3) and numerical floor `eps`. -/
structure GeM where
  pool_size : ℕ
  p : ℕ
  eps : ℝ

/-- `GeM.call` on one feature column: `x = tf.math.maximum(x, eps)`;
`x = tf.pow(x, p)`; `tf.nn.avg_pool(x, pool_size, pool_size, 'VALID')`
(means over non-overlapping full windows of size `pool_size`, partial
trailing windows dropped); `x = tf.pow(x, 1./p)` (real exponent `1/p`). -/
noncomputable def GeM.call (g : GeM) (x : List ℝ) : List ℝ :=
  let x1 := x.map (fun v => max v g.eps)
  let x2 := x1.map (fun v => v ^ g.p)
  let x3 := (List.range (x2.length / g.pool_size)).map
    (fun i => ((x2.drop (i * g.pool_size)).take g.pool_size).sum / (g.pool_size : ℝ))
  x3.map (fun v => v ^ ((1 : ℝ) / (g.p : ℝ)))

/- ### Run configuration and results directory (notebook cells 11 and 13) -/

/-- How the `scaling` entry of the config's filter dict is represented when
serialized: the notebook's JSON step calls `.tolist()` on it, which converts a
numpy array to a plain Python list and raises `AttributeError` (swallowed) on a
float or a list. -/
inductive ScalingRepr
  | scalar (x : ℚ)
  | npArray (xs : List ℚ)
  | pyList (xs : List ℚ)
deriving DecidableEq

/-- The numeric content of a scaling entry, independent of its representation. -/
def scalingValues : ScalingRepr → List ℚ
  | ScalingRepr.scalar x => [x]
  | ScalingRepr.npArray xs => xs
  | ScalingRepr.pyList xs => xs

/-- `attrs['filter']['scaling'] = attrs['filter']['scaling'].tolist()` guarded
by `except AttributeError: pass`: converts a numpy array to a list, leaves a
scalar or list unchanged. -/
def tolistStep : ScalingRepr → ScalingRepr
  | ScalingRepr.npArray xs => ScalingRepr.pyList xs
  | s => s

/-- The `filter` dict inside the config (the `FilterSpec` of the run), with the
serialization-facing `ScalingRepr` for its scaling entry. -/
structure FilterConf where
  scaling : ScalingRepr
  filter_type : String
  filter_order : ℕ
  f_lo : ℚ
  f_hi : Option ℚ
  sampling_rate : ℚ
deriving DecidableEq

/-- The notebook's `Config` (a dict with attribute access): the fields of the
`Config(...)` literal in cell 13. The nested `lr_schedule_paras` /
`optimizer_paras` dicts are elided: no operation of the run ever writes them,
and no claim mentions them. -/
structure Config where
  name : String
  description : String
  data_path : String
  results_parent_path : String
  results_path : Option String
  shuffle_buf_size : ℕ
  K_fold : ℕ
  train_folds : List ℕ
  batch_size : ℕ
  epochs : ℕ
  warm_start : Bool
  warm_start_model_path : String
  filter : FilterConf
  lr_schedule : String
  optimizer : String
  seed : ℕ
deriving DecidableEq

/-- The slice of filesystem state `check_save_config` touches: whether the
run's results directory exists, whether it is non-empty, and which files the
run has written. -/
structure FS where
  resultsDirExists : Bool
  resultsDirNonempty : Bool
  written : List String
deriving DecidableEq

/-- Outcome of `check_save_config`: Python mutates `config` in place and may
raise, so the embedding returns the filesystem, the (possibly mutated) config,
and the raised exception if any. -/
structure CSCResult where
  fs : FS
  config : Config
  err : Option PyError
deriving DecidableEq

/-- `check_save_config(config)`: first sets
`config.results_path = str(Path(config.results_parent_path).joinpath(config.name))`
(an in-place mutation of the config), then `p.mkdir(parents=True, exist_ok=False)`;
a `FileExistsError` is caught and re-raised as `ValueError` iff the directory is
non-empty.  On the non-raising paths it writes `config.pkl` (joblib) and
`config.json`; building the JSON converts `attrs['filter']['scaling']` with
`.tolist()`, and since `attrs` is a shallow copy of `vars(config)`,
`attrs['filter']` aliases `config.filter`, so that conversion also mutates the
config's filter dict. -/
def check_save_config (fs : FS) (config : Config) : CSCResult :=
  let c1 : Config :=
    { config with results_path := some (config.results_parent_path ++ "/" ++ config.name) }
  if fs.resultsDirExists && fs.resultsDirNonempty then
    { fs := fs, config := c1, err := some PyError.valueError }
  else
    { fs :=
        { resultsDirExists := true
          resultsDirNonempty := true
          written := fs.written ++ [(c1.results_path.getD "") ++ "/config.pkl",
            (c1.results_path.getD "") ++ "/config.json"] }
      config := { c1 with filter := { c1.filter with scaling := tolistStep c1.filter.scaling } }
      err := none }

/-- `config.train_folds or range(config.K_fold)`: an empty `train_folds` list
is falsy in Python, so it falls back to all `K_fold` folds. -/
def fold_list (train_folds : List ℕ) (K_fold : ℕ) : List ℕ :=
  if train_folds = [] then List.range K_fold else train_folds

/-- How `train_K_folds_make_inference` ends: the graceful
`except FileExistsError: print(...); return` path, an exception propagating to
the caller, or a completed run. -/
inductive RunOutcome
  | quitGracefully
  | raised (e : PyError)
  | completed
deriving DecidableEq

/-- Final state of one `train_K_folds_make_inference` call. -/
structure RunResult where
  outcome : RunOutcome
  fs : FS
  config : Config
deriving DecidableEq

/-- The files the training/inference phases write under the results path
(per-fold checkpoints and the submission), used to model the completed branch. -/
def training_artifacts (c : Config) : List String :=
  (fold_list c.train_folds c.K_fold).map
      (fun k => (c.results_path.getD "") ++ "/checkpoint_fold" ++ toString k)
    ++ [(c.results_path.getD "") ++ "/submission.csv"]

/-- The control flow of `train_K_folds_make_inference` around
`check_save_config`: `try: check_save_config(config) except FileExistsError:
print(...); return` — only `FileExistsError` takes the graceful quit path, any
other exception propagates before data, models or files are touched; otherwise
the run proceeds to train the folds and write its artifacts. -/
def train_K_folds_make_inference (fs : FS) (config : Config) : RunResult :=
  let r := check_save_config fs config
  match r.err with
  | some PyError.fileExistsError => ⟨RunOutcome.quitGracefully, r.fs, r.config⟩
  | some e => ⟨RunOutcome.raised e, r.fs, r.config⟩
  | none =>
    ⟨RunOutcome.completed,
      { r.fs with written := r.fs.written ++ training_artifacts r.config },
      r.config⟩

/- ### Resumable inference (`load_results_make_inference`, notebook cell 11) -/

/-- The checkpoint-loading loop of `load_results_make_inference`: for each
configured fold `k` (in order), `keras.models.load_model(p / f'checkpoint_fold{k}')`,
which raises an IO error when fold `k` has no persisted checkpoint. `persisted`
is the set of fold indices with a checkpoint directory under the results path;
a loaded model is represented by its fold index. -/
def load_models (persisted : List ℕ) : List ℕ → Except PyError (List ℕ)
  | [] => Except.ok []
  | k :: rest =>
    if k ∈ persisted then
      match load_models persisted rest with
      | Except.ok ms => Except.ok (k :: ms)
      | Except.error e => Except.error e
    else Except.error PyError.ioError

/-- `load_results_make_inference(results_path)` after reloading the pickled
config: loads one model per fold of `config.train_folds or range(config.K_fold)`
and hands exactly that model list to `make_inference`, which averages one
probability column per model. -/
def load_results_make_inference (persisted : List ℕ) (train_folds : List ℕ)
    (K_fold : ℕ) : Except PyError (List ℕ) :=
  load_models persisted (fold_list train_folds K_fold)

/- ### Concrete instances used by witnesses and counterexamples -/

/-- A concrete stand-in for the external Butterworth design, usable because
every claim holds for any design output. -/
def butter0 : ℕ → List ℝ → String → ℝ → List Biquad := fun _ _ _ _ => []

/-- The notebook's default highpass filter arguments. -/
noncomputable def specHP : FilterSpec :=
  { scaling := Scaling.scalar 1, filter_type := "highpass", filter_order := 5,
    f_lo := 20.43, f_hi := none, sampling_rate := 2048 }

/-- The notebook's configured bandpass filter arguments. -/
noncomputable def specBP : FilterSpec :=
  { scaling := Scaling.scalar 1, filter_type := "bandpass", filter_order := 8,
    f_lo := 25, f_hi := some 1000, sampling_rate := 2048 }

/-- The filter `SignalFilter.construct butter0 specHP` produces. -/
noncomputable def fHP : SignalFilter :=
  { scaling := Scaling.scalar 1, filter_window := TaperWindow.one, filter_norm := 1,
    filter := butter0 5 [(20.43 : ℝ)] "highpass" 2048 }

/-- The filter `SignalFilter.construct butter0 specBP` produces. -/
noncomputable def fBP : SignalFilter :=
  { scaling := Scaling.scalar 1,
    filter_window := TaperWindow.vec (tukeyWin 4096 0.1),
    filter_norm := Real.sqrt (((1000 : ℝ) - 25) / (2048 / 2)),
    filter := butter0 8 [(25 : ℝ), 1000] "bandpass" 2048 }

/-- A concrete GeM layer (the notebook uses `pool_size ∈ {8, 6, 4}`, `p = 3`). -/
noncomputable def gem0 : GeM := { pool_size := 2, p := 3, eps := 1 }

/-- A concrete run configuration (fresh run: `results_path` still `None`). -/
def c0 : Config :=
  { name := "run0", description := "d", data_path := "data/",
    results_parent_path := "results", results_path := none,
    shuffle_buf_size := 2048, K_fold := 5, train_folds := [],
    batch_size := 50, epochs := 8, warm_start := false,
    warm_start_model_path := "",
    filter :=
      { scaling := ScalingRepr.scalar 1, filter_type := "bandpass",
        filter_order := 8, f_lo := 25, f_hi := some 1000, sampling_rate := 2048 },
    lr_schedule := "CosineDecay", optimizer := "AdamW", seed := 42 }

/-- Filesystem state with no results directory yet. -/
def fs0 : FS := { resultsDirExists := false, resultsDirNonempty := false, written := [] }

/-- Filesystem state whose results directory exists and is non-empty. -/
def fsNE : FS :=
  { resultsDirExists := true, resultsDirNonempty := true, written := ["old"] }

/-! ## Theorems -/

/- ### Fold assignment -/

theorem sliceBySizes_flatten {α : Type} (sizes : List ℕ) (xs : List α) :
    (sliceBySizes sizes xs).flatten = xs.take sizes.sum := by
  induction sizes generalizing xs with
  | nil => simp [sliceBySizes]
  | cons s rest ih =>
    simp only [sliceBySizes, List.flatten_cons, ih, List.sum_cons, List.take_add]

theorem sliceBySizes_length {α : Type} (sizes : List ℕ) (xs : List α) :
    (sliceBySizes sizes xs).length = sizes.length := by
  induction sizes generalizing xs with
  | nil => simp [sliceBySizes]
  | cons s rest ih => simp [sliceBySizes, ih]

theorem fold_sizes_sum (K N : ℕ) (hK : 0 < K) : (fold_sizes K N).sum = N := by
  have hmod : N % K < K := Nat.mod_lt _ hK
  have h2 : N % K * (N / K) ≤ K * (N / K) := Nat.mul_le_mul_right _ hmod.le
  have hmd : N % K + K * (N / K) = N := Nat.mod_add_div N K
  simp only [fold_sizes, List.sum_append, List.sum_replicate, smul_eq_mul]
  calc N % K * (N / K + 1) + (K - N % K) * (N / K)
      = N % K * (N / K) + N % K + (K * (N / K) - N % K * (N / K)) := by
        rw [Nat.mul_add, Nat.mul_one, Nat.sub_mul]
    _ = N := by omega

theorem fold_sizes_length (K N : ℕ) (hK : 0 < K) : (fold_sizes K N).length = K := by
  have hmod : N % K < K := Nat.mod_lt _ hK
  simp [fold_sizes]
  omega

/-- Claim C2: for every number of folds K ≥ 2, shard count N ≥ K and seed (the
seeded shuffle being some permutation `shuffled` of `range N`), the K
validation groups of the fold assignment are pairwise disjoint and collectively
exhaustive — every shard index below N lies in exactly one validation group —
and each fold's training set is exactly the complement of its validation group
among the N shard indices. -/
theorem kfold_split_partition (K N : ℕ) (shuffled : List ℕ)
    (hK : 2 ≤ K) (_hKN : K ≤ N) (hperm : shuffled.Perm (List.range N)) :
    (kfold_val_groups K shuffled).length = K ∧
    (∀ i, i < N → ∃! k, k < K ∧ i ∈ (kfold_val_groups K shuffled).getD k []) ∧
    (∀ k i, i ∈ kfold_train_indices K shuffled k ↔
      (i < N ∧ i ∉ (kfold_val_groups K shuffled).getD k [])) := by
  have hK0 : 0 < K := by omega
  have hlen : shuffled.length = N := by simpa using hperm.length_eq
  have hsum : (fold_sizes K shuffled.length).sum = shuffled.length := by
    rw [hlen]; exact fold_sizes_sum K N hK0
  have hflat : (kfold_val_groups K shuffled).flatten = shuffled := by
    rw [kfold_val_groups, sliceBySizes_flatten, hsum, List.take_length]
  have hglen : (kfold_val_groups K shuffled).length = K := by
    rw [kfold_val_groups, sliceBySizes_length, hlen]; exact fold_sizes_length K N hK0
  have hnd : shuffled.Nodup := hperm.nodup_iff.mpr (List.nodup_range N)
  have hndf : (kfold_val_groups K shuffled).flatten.Nodup := by rw [hflat]; exact hnd
  obtain ⟨-, hdisj⟩ := List.nodup_flatten.mp hndf
  refine ⟨hglen, ?_, ?_⟩
  · intro i hiN
    have hmem : i ∈ (kfold_val_groups K shuffled).flatten := by
      rw [hflat]; exact hperm.mem_iff.mpr (List.mem_range.mpr hiN)
    obtain ⟨l, hl, hil⟩ := List.mem_flatten.mp hmem
    obtain ⟨k, hk, hkl⟩ := List.mem_iff_getElem.mp hl
    have hkK : k < K := by omega
    refine ⟨k, ⟨hkK, ?_⟩, ?_⟩
    · rw [List.getD_eq_getElem _ _ hk, hkl]; exact hil
    · rintro k2 ⟨hk2K, hk2mem⟩
      have hk2 : k2 < (kfold_val_groups K shuffled).length := by omega
      rw [List.getD_eq_getElem _ _ hk2] at hk2mem
      by_contra hne
      have hil2 : i ∈ (kfold_val_groups K shuffled)[k] := by rw [hkl]; exact hil
      rcases Nat.lt_or_ge k2 k with h | h
      · exact List.pairwise_iff_getElem.mp hdisj k2 k hk2 hk h hk2mem hil2
      · have hlt : k < k2 := by omega
        exact List.pairwise_iff_getElem.mp hdisj k k2 hk hk2 hlt hil2 hk2mem
  · intro k i
    simp [kfold_train_indices, List.mem_filter, List.mem_range, hlen]

/-- Witness for C2 at K = 2, N = 4 and the shuffle [2, 0, 3, 1]. -/
theorem kfold_split_partition_witness :
    (kfold_val_groups 2 [2, 0, 3, 1]).length = 2 ∧
    (∀ i, i < 4 → ∃! k, k < 2 ∧ i ∈ (kfold_val_groups 2 [2, 0, 3, 1]).getD k []) ∧
    (∀ k i, i ∈ kfold_train_indices 2 [2, 0, 3, 1] k ↔
      (i < 4 ∧ i ∉ (kfold_val_groups 2 [2, 0, 3, 1]).getD k [])) :=
  kfold_split_partition 2 4 [2, 0, 3, 1] (by norm_num) (by norm_num) (by decide)

/- ### SignalFilter -/

theorem construct_cases (butter : ℕ → List ℝ → String → ℝ → List Biquad)
    (spec : FilterSpec) (f : SignalFilter)
    (h : SignalFilter.construct butter spec = Except.ok f) :
    (pyLower spec.filter_type = "bandpass" ∧ ∃ v, spec.f_hi = some v ∧
      f = { scaling := spec.scaling
            filter_window := TaperWindow.vec (tukeyWin 4096 0.1)
            filter_norm := Real.sqrt ((v - spec.f_lo) / (spec.sampling_rate / 2))
            filter := butter spec.filter_order [spec.f_lo, v] spec.filter_type
              spec.sampling_rate }) ∨
    (pyLower spec.filter_type ≠ "bandpass" ∧ pyLower spec.filter_type = "highpass" ∧
      f = { scaling := spec.scaling
            filter_window := TaperWindow.one
            filter_norm := 1
            filter := butter spec.filter_order [spec.f_lo] spec.filter_type
              spec.sampling_rate }) := by
  by_cases hb : pyLower spec.filter_type = "bandpass"
  · left
    rw [SignalFilter.construct, if_pos hb] at h
    cases hfh : spec.f_hi with
    | none => rw [hfh] at h; exact absurd h (by simp)
    | some v =>
      rw [hfh] at h
      refine ⟨hb, v, rfl, ?_⟩
      injection h with h2
      exact h2.symm
  · right
    rw [SignalFilter.construct, if_neg hb] at h
    by_cases hh : pyLower spec.filter_type = "highpass"
    · rw [if_pos hh] at h
      refine ⟨hb, hh, ?_⟩
      injection h with h2
      exact h2.symm
    · rw [if_neg hh] at h
      exact absurd h (by simp)

/-- Claim C1: applying a constructed SignalFilter to a batch computes exactly,
and in this order: (1) multiply every sample by the configured scaling (scalar
or per-channel), (2) multiply the time axis elementwise by the taper window —
the fixed Tukey taper when the filter was constructed as bandpass, the constant
1 when highpass —, (3) apply the Butterworth second-order-sections cascade,
(4) multiply by the normalization constant; nothing else. -/
theorem filt_is_scale_taper_filter_normalize
    (butter : ℕ → List ℝ → String → ℝ → List Biquad) (spec : FilterSpec)
    (f : SignalFilter) (h : SignalFilter.construct butter spec = Except.ok f)
    (X : List Record) :
    f.filt X =
      (((X.map (scaleRecord f.scaling)).map (taperRecord f.filter_window)).map
        (sosRecord f.filter)).map (normRecord f.filter_norm) ∧
    (pyLower spec.filter_type = "bandpass" →
      f.filter_window = TaperWindow.vec (tukeyWin 4096 0.1)) ∧
    (pyLower spec.filter_type = "highpass" → f.filter_window = TaperWindow.one) := by
  refine ⟨?_, ?_, ?_⟩
  · simp [SignalFilter.filt, List.map_map, Function.comp_def]
  · intro hb
    rcases construct_cases butter spec f h with ⟨-, v, -, rfl⟩ | ⟨hnb, -, -⟩
    · rfl
    · exact absurd hb hnb
  · intro hh
    rcases construct_cases butter spec f h with ⟨hb, v, -, rfl⟩ | ⟨-, -, rfl⟩
    · rw [hb] at hh; exact absurd hh (by decide)
    · rfl

/-- Witness for C1: the notebook's default highpass construction, applied to a
one-record batch. -/
theorem filt_is_scale_taper_filter_normalize_witness :
    fHP.filt [[[(1 : ℝ)]]] =
      ((([[[(1 : ℝ)]]].map (scaleRecord fHP.scaling)).map
        (taperRecord fHP.filter_window)).map (sosRecord fHP.filter)).map
          (normRecord fHP.filter_norm) ∧
    fHP.filter_window = TaperWindow.one :=
  ⟨(filt_is_scale_taper_filter_normalize butter0 specHP fHP rfl [[[(1 : ℝ)]]]).1,
    (filt_is_scale_taper_filter_normalize butter0 specHP fHP rfl []).2.2 rfl⟩

theorem flatten_map_singleton {α β : Type} (l : List α) (f : α → β) :
    (l.map (fun a => [f a])).flatten = l.map f := by
  induction l with
  | nil => rfl
  | cons a t ih => simp [ih]

/-- Claim C3: for every SignalFilter (in particular every constructed one) and
every batch of waveform records, filtering the whole batch at once equals
concatenating the results of filtering each single-record sub-batch — exact
equality in the real-number semantics of the arrays. -/
theorem filt_batch_eq_concat_of_singletons (f : SignalFilter) (X : List Record) :
    f.filt X = (X.map (fun r => f.filt [r])).flatten := by
  simp [SignalFilter.filt, List.map_map, Function.comp_def, flatten_map_singleton]

/-- Claim C4: the normalization constant a construction stores is exactly 1 in
the highpass case and exactly sqrt((f_hi − f_lo) / (sampling_rate / 2)) in the
bandpass case with cutoffs f_lo < f_hi < sampling_rate / 2. -/
theorem filter_norm_value
    (butter : ℕ → List ℝ → String → ℝ → List Biquad) (spec : FilterSpec)
    (f : SignalFilter) (h : SignalFilter.construct butter spec = Except.ok f) :
    (pyLower spec.filter_type = "highpass" → f.filter_norm = 1) ∧
    (∀ fh, spec.f_hi = some fh → pyLower spec.filter_type = "bandpass" →
      spec.f_lo < fh → fh < spec.sampling_rate / 2 →
      f.filter_norm = Real.sqrt ((fh - spec.f_lo) / (spec.sampling_rate / 2))) := by
  rcases construct_cases butter spec f h with ⟨hb, v, hfh, rfl⟩ | ⟨hnb, -, rfl⟩
  · constructor
    · intro hh; rw [hb] at hh; exact absurd hh (by decide)
    · intro fh hfh2 _ _ _
      rw [hfh] at hfh2
      injection hfh2 with hv
      rw [hv]
  · constructor
    · intro _; rfl
    · intro fh _ hb _ _; exact absurd hb hnb

/-- Witness for C4: the notebook's highpass arguments give norm 1; its bandpass
arguments (f_lo = 25, f_hi = 1000, fs = 2048, so 25 < 1000 < 1024) give
sqrt((1000 − 25) / (2048 / 2)). -/
theorem filter_norm_value_witness :
    fHP.filter_norm = 1 ∧
    fBP.filter_norm = Real.sqrt (((1000 : ℝ) - 25) / (2048 / 2)) :=
  ⟨(filter_norm_value butter0 specHP fHP rfl).1 rfl,
    (filter_norm_value butter0 specBP fBP rfl).2 1000 rfl rfl
      (show (25 : ℝ) < 1000 by norm_num)
      (show (1000 : ℝ) < 2048 / 2 by norm_num)⟩

/-- Claim C5: for a spec satisfying the cutoff well-formedness invariant (under
which the external Butterworth design is defined), construction succeeds iff
the filter family is recognized (bandpass or highpass, after lower-casing) and,
in the bandpass case, the high cutoff is present; it fails with an error
(`ValueError` for an unknown family, `TypeError` for bandpass without `f_hi`)
exactly otherwise. -/
theorem construct_ok_iff (butter : ℕ → List ℝ → String → ℝ → List Biquad)
    (spec : FilterSpec) (_hwf : spec.wellFormed) :
    (∃ f, SignalFilter.construct butter spec = Except.ok f) ↔
      ((pyLower spec.filter_type = "bandpass" ∨ pyLower spec.filter_type = "highpass") ∧
        (pyLower spec.filter_type = "bandpass" → spec.f_hi.isSome = true)) := by
  constructor
  · rintro ⟨f, h⟩
    rcases construct_cases butter spec f h with ⟨hb, v, hfh, -⟩ | ⟨-, hh, -⟩
    · exact ⟨Or.inl hb, fun _ => by rw [hfh]; rfl⟩
    · exact ⟨Or.inr hh, fun hb => by
        rcases construct_cases butter spec f h with ⟨-, v, hfh, -⟩ | ⟨hnb, -, -⟩
        · rw [hfh]; rfl
        · exact absurd hb hnb⟩
  · rintro ⟨hfam, hcut⟩
    by_cases hb : pyLower spec.filter_type = "bandpass"
    · cases hfh : spec.f_hi with
      | none => rw [hfh] at hcut; exact absurd (hcut hb) (by simp)
      | some v =>
        exact ⟨_, by rw [SignalFilter.construct, if_pos hb, hfh]⟩
    · have hh : pyLower spec.filter_type = "highpass" := by
        rcases hfam with h1 | h1
        · exact absurd h1 hb
        · exact h1
      exact ⟨_, by rw [SignalFilter.construct, if_neg hb, if_pos hh]⟩

/-- Witness for C5: the notebook's bandpass arguments form a well-formed spec
with a recognized family and both cutoffs, and construction succeeds on them. -/
theorem construct_ok_iff_witness :
    ∃ f, SignalFilter.construct butter0 specBP = Except.ok f :=
  (construct_ok_iff butter0 specBP
    (by
      refine ⟨show (0 : ℝ) < 25 by norm_num, show (25 : ℝ) < 2048 / 2 by norm_num, ?_⟩
      intro fh hfh
      rw [Option.mem_def] at hfh
      have h2 : some (1000 : ℝ) = some fh := hfh
      injection h2 with h3
      subst h3
      exact ⟨show (25 : ℝ) < 1000 by norm_num,
        show (1000 : ℝ) < 2048 / 2 by norm_num⟩)).mpr
    ⟨Or.inl rfl, fun _ => rfl⟩

/- ### GeM pooling -/

/-- Claim C9: for every input column, window size > 0, integer exponent p > 0
and floor eps > 0, every element of the GeM pooling output is at least eps
(hence strictly positive): the clamp to ≥ eps before the p-th power survives
the window average and the 1/p-th power. Out-of-range positions of `getD`
default to eps, so the bound over all indices states the elementwise bound. -/
theorem gem_call_ge_eps (g : GeM) (x : List ℝ)
    (hW : 0 < g.pool_size) (hp : 0 < g.p) (heps : 0 < g.eps) :
    ∀ i : ℕ, g.eps ≤ (g.call x).getD i g.eps := by
  have hmem : ∀ y ∈ g.call x, g.eps ≤ y := by
    intro y hy
    simp only [GeM.call, List.mem_map, List.mem_range] at hy
    obtain ⟨a, ⟨i, hin, rfl⟩, rfl⟩ := hy
    set L := (x.map (fun v => max v g.eps)).map (fun v => v ^ g.p) with hL
    set window := (L.drop (i * g.pool_size)).take g.pool_size with hwin
    have hmemL : ∀ v ∈ L, g.eps ^ g.p ≤ v := by
      intro v hv
      rw [hL, List.map_map] at hv
      simp only [List.mem_map, Function.comp_def] at hv
      obtain ⟨u, -, rfl⟩ := hv
      exact pow_le_pow_left₀ heps.le (le_max_right u g.eps) g.p
    have hmemWin : ∀ v ∈ window, g.eps ^ g.p ≤ v := fun v hv =>
      hmemL v (List.mem_of_mem_drop (List.mem_of_mem_take hv))
    have hlenwin : window.length = g.pool_size := by
      have hiL : (i + 1) * g.pool_size ≤ L.length :=
        (Nat.le_div_iff_mul_le hW).mp (Nat.succ_le_of_lt hin)
      rw [Nat.succ_mul] at hiL
      rw [hwin, List.length_take, List.length_drop]
      omega
    have hsum : (g.pool_size : ℝ) * g.eps ^ g.p ≤ window.sum := by
      have h1 := List.card_nsmul_le_sum window _ hmemWin
      rw [hlenwin, nsmul_eq_mul] at h1
      exact_mod_cast h1
    have havg : g.eps ^ g.p ≤ window.sum / (g.pool_size : ℝ) := by
      rw [le_div_iff₀ (by exact_mod_cast hW : (0 : ℝ) < (g.pool_size : ℝ))]
      calc g.eps ^ g.p * (g.pool_size : ℝ) = (g.pool_size : ℝ) * g.eps ^ g.p := by ring
        _ ≤ window.sum := hsum
    have hfinal := Real.rpow_le_rpow (by positivity : (0 : ℝ) ≤ g.eps ^ g.p) havg
      (by positivity : (0 : ℝ) ≤ 1 / (g.p : ℝ))
    have hpow : (g.eps ^ g.p) ^ ((1 : ℝ) / (g.p : ℝ)) = g.eps := by
      rw [← Real.rpow_natCast g.eps g.p, ← Real.rpow_mul heps.le, mul_one_div,
        div_self (Nat.cast_ne_zero.mpr hp.ne'), Real.rpow_one]
    calc g.eps = (g.eps ^ g.p) ^ ((1 : ℝ) / (g.p : ℝ)) := hpow.symm
      _ ≤ (window.sum / (g.pool_size : ℝ)) ^ ((1 : ℝ) / (g.p : ℝ)) := hfinal
  intro i
  by_cases hi : i < (g.call x).length
  · rw [List.getD_eq_getElem _ _ hi]
    exact hmem _ (List.getElem_mem hi)
  · rw [List.getD_eq_default _ _ (le_of_not_lt hi)]

/-- Witness for C9 at pool size 2, p = 3, eps = 1 on the column [1, 1]. -/
theorem gem_call_ge_eps_witness : (1 : ℝ) ≤ (gem0.call [1, 1]).getD 0 1 :=
  gem_call_ge_eps gem0 [1, 1] (by decide) (by decide)
    (show (0 : ℝ) < 1 by norm_num) 0

/- ### Dataset record order -/

/-- Counterexample to claim C6: a validation dataset (training-mode read,
shuffle disabled — as built for each fold's validation shards) read with
parallel degree 2 interleaves the two selected shards [0, 1] and [2, 3] into
[0, 2, 1, 3], not the shard-order concatenation [0, 1, 2, 3]; only test-mode
reads pin `num_parallel_reads` to 1. -/
theorem get_dataset_val_order_counterexample :
    get_dataset_order [[0, 1], [2, 3]] ([] : List (List ℕ)) 2 id true false
        (some [0, 1]) ≠ [0, 1, 2, 3] ∧
    get_dataset_order [[0, 1], [2, 3]] ([] : List (List ℕ)) 2 id true false
        (some [0, 1]) = [0, 2, 1, 3] := by decide

/-- Claim C6 (amended): test datasets built with shuffle disabled are produced
in shard order with no interleaving (test reads force `num_parallel_reads = 1`
whatever the runtime would tune); validation datasets (training-mode reads
with shuffle disabled) are read with `num_parallel_reads = AUTOTUNE` and
preserve the order of the selected shards only when the effective parallel
read degree is 1. -/
theorem get_dataset_order_sequential {α : Type} (train_files test_files : List (List α))
    (autotune : ℕ) (shuffle_order : List α → List α) (idx : List ℕ) :
    get_dataset_order train_files test_files autotune shuffle_order false false none =
      test_files.flatten ∧
    get_dataset_order train_files test_files 1 shuffle_order true false (some idx) =
      (idx.map (fun i => train_files.getD i [])).flatten := by
  constructor <;> simp [get_dataset_order, tfRecordDataset_order]

/- ### Resumable inference -/

theorem load_models_spec (persisted : List ℕ) (folds : List ℕ) :
    ((load_models persisted folds).isOk = true ↔ ∀ k ∈ folds, k ∈ persisted) ∧
    (∀ ms, load_models persisted folds = Except.ok ms → ms = folds) := by
  induction folds with
  | nil =>
    constructor
    · simp [load_models, Except.isOk, Except.toBool]
    · intro ms h
      injection h with h2
      exact h2.symm
  | cons k rest ih =>
    by_cases hk : k ∈ persisted
    · cases hrec : load_models persisted rest with
      | ok ms0 =>
        rw [hrec] at ih
        constructor
        · simp only [load_models, if_pos hk, hrec, Except.isOk, Except.toBool,
            List.forall_mem_cons]
          simp only [Except.isOk, Except.toBool] at ih
          exact ⟨fun _ => ⟨hk, ih.1.mp trivial⟩, fun _ => trivial⟩
        · intro ms h
          simp only [load_models, if_pos hk, hrec] at h
          injection h with h2
          rw [← h2, ih.2 ms0 rfl]
      | error e =>
        rw [hrec] at ih
        constructor
        · simp only [load_models, if_pos hk, hrec, Except.isOk, Except.toBool,
            List.forall_mem_cons]
          simp only [Except.isOk, Except.toBool] at ih
          constructor
          · intro h; exact absurd h (by simp)
          · rintro ⟨-, hall⟩
            exact absurd (ih.1.mpr hall) (by simp)
        · intro ms h
          simp only [load_models, if_pos hk, hrec] at h
          exact absurd h (by simp)
    · constructor
      · simp only [load_models, if_neg hk, Except.isOk, Except.toBool,
          List.forall_mem_cons]
        constructor
        · intro h; exact absurd h (by simp)
        · rintro ⟨hkmem, -⟩; exact absurd hkmem hk
      · intro ms h
        simp only [load_models, if_neg hk] at h
        exact absurd h (by simp)

/-- Counterexample to claim C7: with checkpoints persisted for folds 0, 1 and 2
but only folds [0, 1] configured, the persisted checkpoint count (3) differs
from the configured fold list length (2), yet the resumable inference entry
point succeeds instead of failing. -/
theorem load_results_count_mismatch_ok :
    (load_results_make_inference [0, 1, 2] [0, 1] 5).isOk = true ∧
    ([0, 1, 2] : List ℕ).length ≠ (fold_list [0, 1] 5).length := by decide

/-- Claim C7 (amended): the resumable inference entry point fails (with the
load error of the first missing checkpoint) iff some configured fold has no
persisted checkpoint — extra checkpoints beyond the configured fold list are
ignored, not an error — and on success it hands the averaging step exactly one
loaded model per configured fold, in fold order, so the submission is never
averaged over fewer models than the configured folds. -/
theorem load_results_ok_iff (persisted train_folds : List ℕ) (K_fold : ℕ) :
    ((load_results_make_inference persisted train_folds K_fold).isOk = true ↔
      ∀ k ∈ fold_list train_folds K_fold, k ∈ persisted) ∧
    (∀ ms, load_results_make_inference persisted train_folds K_fold = Except.ok ms →
      ms = fold_list train_folds K_fold) :=
  load_models_spec persisted (fold_list train_folds K_fold)

/-- Witness for C7 (amended) with checkpoints for folds 0 and 1 and the full
2-fold list configured. -/
theorem load_results_ok_iff_witness :
    (load_results_make_inference [0, 1] [] 2).isOk = true ∧ [0, 1] = fold_list [] 2 :=
  ⟨(load_results_ok_iff [0, 1] [] 2).1.mpr (by decide),
    (load_results_ok_iff [0, 1] [] 2).2 [0, 1] rfl⟩

/- ### Run configuration immutability and results-directory conflict -/

theorem scalingValues_tolistStep (s : ScalingRepr) :
    scalingValues (tolistStep s) = scalingValues s := by
  cases s <;> rfl

/-- Claim C8 (amended): the run does mutate the configuration, in exactly two
places, both inside `check_save_config`: `results_path` is set to
`results_parent_path/name` (it is `None` when the run starts), and on the
non-raising path the JSON-serialization step rebinds the filter's scaling from
a numpy array to an equal-valued plain list through the aliased `attrs` dict.
Every other configuration field — and the numeric content of the scaling — is
left unchanged by the run's operations. -/
theorem check_save_config_effect (fs : FS) (c : Config) :
    (check_save_config fs c).config.results_path
        = some (c.results_parent_path ++ "/" ++ c.name) ∧
    (check_save_config fs c).config.name = c.name ∧
    (check_save_config fs c).config.description = c.description ∧
    (check_save_config fs c).config.data_path = c.data_path ∧
    (check_save_config fs c).config.results_parent_path = c.results_parent_path ∧
    (check_save_config fs c).config.shuffle_buf_size = c.shuffle_buf_size ∧
    (check_save_config fs c).config.K_fold = c.K_fold ∧
    (check_save_config fs c).config.train_folds = c.train_folds ∧
    (check_save_config fs c).config.batch_size = c.batch_size ∧
    (check_save_config fs c).config.epochs = c.epochs ∧
    (check_save_config fs c).config.warm_start = c.warm_start ∧
    (check_save_config fs c).config.warm_start_model_path = c.warm_start_model_path ∧
    (check_save_config fs c).config.lr_schedule = c.lr_schedule ∧
    (check_save_config fs c).config.optimizer = c.optimizer ∧
    (check_save_config fs c).config.seed = c.seed ∧
    (check_save_config fs c).config.filter.filter_type = c.filter.filter_type ∧
    (check_save_config fs c).config.filter.filter_order = c.filter.filter_order ∧
    (check_save_config fs c).config.filter.f_lo = c.filter.f_lo ∧
    (check_save_config fs c).config.filter.f_hi = c.filter.f_hi ∧
    (check_save_config fs c).config.filter.sampling_rate = c.filter.sampling_rate ∧
    scalingValues (check_save_config fs c).config.filter.scaling
      = scalingValues c.filter.scaling := by
  rw [check_save_config]
  split
  · exact ⟨rfl, rfl, rfl, rfl, rfl, rfl, rfl, rfl, rfl, rfl, rfl, rfl, rfl, rfl,
      rfl, rfl, rfl, rfl, rfl, rfl, rfl⟩
  · exact ⟨rfl, rfl, rfl, rfl, rfl, rfl, rfl, rfl, rfl, rfl, rfl, rfl, rfl, rfl,
      rfl, rfl, rfl, rfl, rfl, rfl, scalingValues_tolistStep _⟩

/-- Counterexample to claim C8: on a fresh filesystem and the run's starting
configuration (whose `results_path` is still `None`), the configuration
visible after `check_save_config` — the first operation of
`train_K_folds_make_inference` — differs from the configuration created at
run start. -/
theorem check_save_config_mutates : (check_save_config fs0 c0).config ≠ c0 := by
  decide

/-- Claim C10: when the results directory exists and is non-empty, the
validation step raises `ValueError` (not `FileExistsError`), so the
orchestrator's `except FileExistsError` handler is not taken — the run neither
quits gracefully nor completes, the error propagates to the caller, and no
file is written into the existing directory. -/
theorem nonempty_results_dir_raises (fs : FS) (c : Config)
    (h1 : fs.resultsDirExists = true) (h2 : fs.resultsDirNonempty = true) :
    (check_save_config fs c).err = some PyError.valueError ∧
    (train_K_folds_make_inference fs c).outcome = RunOutcome.raised PyError.valueError ∧
    (train_K_folds_make_inference fs c).outcome ≠ RunOutcome.quitGracefully ∧
    (train_K_folds_make_inference fs c).fs.written = fs.written := by
  have hcond : (fs.resultsDirExists && fs.resultsDirNonempty) = true := by
    rw [h1, h2]; rfl
  refine ⟨?_, ?_, ?_, ?_⟩ <;>
    simp [train_K_folds_make_inference, check_save_config, hcond]

/-- Witness for C10 on a concrete non-empty results directory. -/
theorem nonempty_results_dir_raises_witness :
    (check_save_config fsNE c0).err = some PyError.valueError ∧
    (train_K_folds_make_inference fsNE c0).outcome
        = RunOutcome.raised PyError.valueError ∧
    (train_K_folds_make_inference fsNE c0).outcome ≠ RunOutcome.quitGracefully ∧
    (train_K_folds_make_inference fsNE c0).fs.written = fsNE.written :=
  nonempty_results_dir_raises fsNE c0 rfl rfl
